import Mathlib

/-!
Shallow embedding of the locale-routing, dictionary-loading, proxy-endpoint
and chat-panel logic of the bilingual portfolio frontend, together with
theorems settling the spec's testable properties against it.

JavaScript strings are modelled as lists of characters (`JsStr`); machine
state touched by the embedded functions (React component state, the host
module registry) is passed explicitly.
-/

namespace Portfolio

/-- JavaScript strings, modelled as lists of characters. -/
abbrev JsStr := List Char

/-- Embeds `SUPPORTED_LOCALES = ["fr", "en"] as const` from the locale registry. -/
def SUPPORTED_LOCALES : List JsStr := ["fr".toList, "en".toList]

/-- Embeds `isLocale(value)`: membership of the candidate string in `SUPPORTED_LOCALES`. -/
def isLocale (value : JsStr) : Bool := SUPPORTED_LOCALES.contains value

/-- Embeds `String.prototype.startsWith`: `jsStartsWith s p` is true when `p` is a
leading part of `s`. -/
def jsStartsWith : JsStr → JsStr → Bool
  | _, [] => true
  | [], _ :: _ => false
  | c :: cs, p :: ps => c == p && jsStartsWith cs ps

/-- Scanner for the regular expression `\.[^/]+$` over the reversed character list:
`seen` records whether at least one non-slash character has been passed. The
expression matches when some dot is followed (to the end of the string) by one or
more characters none of which is a slash. -/
def extScan : JsStr → Bool → Bool
  | [], _ => false
  | c :: rest, seen =>
    if c = '/' then false
    else if c = '.' then (if seen then true else extScan rest true)
    else extScan rest true

/-- Embeds `PUBLIC_FILE.test(pathname)` where `PUBLIC_FILE = /\.[^/]+$/`. -/
def hasFileExt (p : JsStr) : Bool := extScan p.reverse false

/-- Embeds `String.prototype.split("/")`: splits at every slash, keeping empty
segments, and yields one (possibly empty) segment even on the empty string. -/
def splitSlash : JsStr → List JsStr
  | [] => [[]]
  | c :: rest =>
    if c = '/' then [] :: splitSlash rest
    else
      match splitSlash rest with
      | [] => [[c]]
      | h :: t => (c :: h) :: t

/-- Embeds `Array.prototype.join("/")`. -/
def joinSlash : List JsStr → JsStr
  | [] => []
  | [x] => x
  | x :: y :: rest => x ++ '/' :: joinSlash (y :: rest)

/-- An incoming request as seen by the edge proxy: the URL pathname and the query
string (which the proxy never inspects but the redirect URL retains, since the
code clones the request URL and only overwrites `pathname`). -/
structure ProxyRequest where
  pathname : JsStr
  query : JsStr
deriving DecidableEq

/-- Outcome of the edge proxy: `next` is `NextResponse.next()` (pass through),
`redirect p q` is `NextResponse.redirect(url)` with `url.pathname = p` and the
query string `q` untouched. -/
inductive ProxyResult where
  | next
  | redirect (pathname : JsStr) (query : JsStr)
deriving DecidableEq

/-- Embeds the `proxy(request)` edge function: pass through framework assets, API
routes and file-like paths; redirect the bare root to `/fr`; redirect any path
whose first segment is not a supported locale to the same path with `/fr`
prepended; pass through otherwise. -/
def proxy (request : ProxyRequest) : ProxyResult :=
  let pathname := request.pathname
  if jsStartsWith pathname "/_next".toList || jsStartsWith pathname "/api".toList
      || hasFileExt pathname then
    .next
  else if pathname = "/".toList then
    .redirect "/fr".toList request.query
  else
    let firstSegment := ((splitSlash pathname).filter (fun s => !s.isEmpty)).head?
    let hasLocale :=
      match firstSegment with
      | some seg => isLocale seg
      | none => false
    if !hasLocale then
      .redirect ("/fr".toList ++ pathname) request.query
    else
      .next

/-- Embeds `swapLocale(pathname, nextLocale)` from the language switcher: split
into non-empty segments, replace the first with the target locale (or return just
the target locale when there are no segments), and rejoin with a leading slash. -/
def swapLocale (pathname : JsStr) (nextLocale : JsStr) : JsStr :=
  let parts := (splitSlash pathname).filter (fun s => !s.isEmpty)
  match parts with
  | [] => '/' :: nextLocale
  | _ :: rest => '/' :: joinSlash (nextLocale :: rest)

/-- Minimal JSON universe used by the proxy endpoints and the translation
bundles: strings and objects, which is all the embedded code constructs or
compares. -/
inductive Json where
  | str (s : JsStr)
  | obj (members : List (JsStr × Json))

mutual

/-- Decidable equality for `Json`, by mutual recursion with member lists. -/
def jsonDecEq : (a b : Json) → Decidable (a = b)
  | .str s, .str t =>
    match List.hasDecEq s t with
    | isTrue h => isTrue (by rw [h])
    | isFalse h => isFalse (fun hh => h (by cases hh; rfl))
  | .str _, .obj _ => isFalse (fun h => Json.noConfusion h)
  | .obj _, .str _ => isFalse (fun h => Json.noConfusion h)
  | .obj ms, .obj ns =>
    match jsonMembersDecEq ms ns with
    | isTrue h => isTrue (by rw [h])
    | isFalse h => isFalse (fun hh => h (by cases hh; rfl))

/-- Decidable equality for `Json` object member lists. -/
def jsonMembersDecEq : (a b : List (JsStr × Json)) → Decidable (a = b)
  | [], [] => isTrue rfl
  | [], _ :: _ => isFalse (fun h => List.noConfusion h)
  | _ :: _, [] => isFalse (fun h => List.noConfusion h)
  | (k, v) :: ms, (l, w) :: ns =>
    match List.hasDecEq k l, jsonDecEq v w, jsonMembersDecEq ms ns with
    | isTrue h1, isTrue h2, isTrue h3 => isTrue (by rw [h1, h2, h3])
    | isFalse h1, _, _ => isFalse (fun hh => h1 (by cases hh; rfl))
    | _, isFalse h2, _ => isFalse (fun hh => h2 (by cases hh; rfl))
    | _, _, isFalse h3 => isFalse (fun hh => h3 (by cases hh; rfl))

end

instance : DecidableEq Json := jsonDecEq

/-- Shorthand for a JSON string leaf written from a Lean string literal. -/
def jstr (s : String) : Json := .str s.toList

/-- Shorthand for a JSON object key written from a Lean string literal. -/
def jkey (s : String) : JsStr := s.toList

mutual

/-- Key structure of a JSON value: every string leaf is collapsed to the empty
string, so two values have the same `keyShape` exactly when their nested key
sets (and ordering) agree. -/
def keyShape : Json → Json
  | .str _ => .str []
  | .obj ms => .obj (keyShapeMembers ms)

/-- Key structure of a JSON object member list. -/
def keyShapeMembers : List (JsStr × Json) → List (JsStr × Json)
  | [] => []
  | (k, v) :: ms => (k, keyShape v) :: keyShapeMembers ms

end

/-- Outcome of one fetch to the external backend as observed by a proxy route:
the fetch promise rejects (`throws`, a network error), or it resolves with a
status code and a body whose `.json()` either parses (`some`) or rejects
(`none`). -/
inductive FetchOutcome where
  | throws
  | ok (status : Nat) (jsonBody : Option Json)
deriving DecidableEq

/-- A response produced by a proxy route: HTTP status plus JSON body, as built
by `NextResponse.json(data, init)`. -/
structure RouteResponse where
  status : Nat
  body : Json
deriving DecidableEq

/-- The fixed failure envelope of the health route. -/
def healthEnvelope : Json :=
  .obj [(jkey "status", jstr "error"), (jkey "reason", jstr "backend_unreachable")]

/-- Embeds `GET` of the health route: forward to the backend `/health`; on
success relay the parsed body and status verbatim; if the fetch or the body
parse throws, return the fixed 502 envelope. -/
def healthGET (backend : FetchOutcome) : RouteResponse :=
  match backend with
  | .throws => ⟨502, healthEnvelope⟩
  | .ok _ none => ⟨502, healthEnvelope⟩
  | .ok status (some data) => ⟨status, data⟩

/-- The fixed failure envelope of the chat route. -/
def chatEnvelope : Json := .obj [(jkey "message", jstr "Backend unreachable")]

/-- Embeds `POST` of the chat route: parse the incoming request body
(`requestJson = none` when `request.json()` throws), forward the payload to the
backend `/chat`, and relay the parsed response body and status verbatim; the
single `catch` turns a throw at any step into the fixed 502 envelope. -/
def chatPOST (requestJson : Option Json) (backend : Json → FetchOutcome) : RouteResponse :=
  match requestJson with
  | none => ⟨502, chatEnvelope⟩
  | some payload =>
    match backend payload with
    | .throws => ⟨502, chatEnvelope⟩
    | .ok _ none => ⟨502, chatEnvelope⟩
    | .ok status (some data) => ⟨status, data⟩

/-- Outcome of a route component's server render, restricted to what the locale
decides: rejection via `notFound()` or a render using a resolved locale. -/
inductive RenderOutcome where
  | notFound
  | rendered (locale : JsStr)
deriving DecidableEq

/-- Embeds the locale resolution of `LocaleLayout`: an unsupported locale
parameter triggers `notFound()`; otherwise the layout renders with it. -/
def localeLayout (localeParam : JsStr) : RenderOutcome :=
  if isLocale localeParam then .rendered localeParam else .notFound

/-- Embeds the locale resolution of `HomePage`:
`const locale = isLocale(localeParam) ? localeParam : "fr"`. -/
def homePage (localeParam : JsStr) : RenderOutcome :=
  .rendered (if isLocale localeParam then localeParam else "fr".toList)

/-- Embeds the locale resolution of `ProjectsPage`, identical in form to the
home page: fall back to `fr` when the parameter is not a supported locale. -/
def projectsPage (localeParam : JsStr) : RenderOutcome :=
  .rendered (if isLocale localeParam then localeParam else "fr".toList)

/-- The validated locale union type of the dictionary loader. -/
inductive Locale where
  | fr
  | en
deriving DecidableEq

/-- State of the host module registry: how many times each translation bundle
module has been dynamically imported, and how many times it has actually been
loaded (the host loads a module on its first import and serves its module cache
afterwards). -/
structure Host where
  frImports : Nat
  enImports : Nat
  frLoads : Nat
  enLoads : Nat
deriving DecidableEq

/-- Modelled from the spec: the dictionary JSON files (`dictionaries/fr.json`)
are not under `src/`; this French bundle is reconstructed from the dictionary
keys the pages, header and chat scene access, with placeholder French values. -/
def dictFr : Json :=
  .obj
    [ (jkey "nav", .obj [(jkey "language", jstr "Langue")])
    , (jkey "language",
        .obj [(jkey "switchToFr", jstr "Version française"),
              (jkey "switchToEn", jstr "English version")])
    , (jkey "seo",
        .obj [(jkey "siteTitle", jstr "Saleh Minawi — Portfolio"),
              (jkey "siteDescription", jstr "Portfolio bilingue"),
              (jkey "homeTitle", jstr "Accueil"),
              (jkey "homeDescription", jstr "Profil et projets"),
              (jkey "projectsTitle", jstr "Projets"),
              (jkey "projectsDescription", jstr "Etudes de cas")])
    , (jkey "home",
        .obj [(jkey "role", jstr "Developpeur IA"),
              (jkey "goal", jstr "Construire des systemes IA fiables"),
              (jkey "stackBackend", jstr "FastAPI"),
              (jkey "stackAi", jstr "RAG"),
              (jkey "stackInfra", jstr "Docker"),
              (jkey "stackData", jstr "PostgreSQL"),
              (jkey "chatCta", jstr "Initialiser la session")])
    , (jkey "projects",
        .obj [(jkey "title", jstr "Projets"),
              (jkey "intro", jstr "Etudes de cas detaillees"),
              (jkey "labels",
                .obj [(jkey "context", jstr "Contexte"),
                      (jkey "architecture", jstr "Architecture"),
                      (jkey "choices", jstr "Choix"),
                      (jkey "constraints", jstr "Contraintes"),
                      (jkey "results", jstr "Resultats")])])
    , (jkey "chat",
        .obj [(jkey "boot1", jstr "Initialisation du noyau"),
              (jkey "boot2", jstr "Chargement des modules"),
              (jkey "boot3", jstr "Liaison au backend"),
              (jkey "boot4", jstr "Interface prete"),
              (jkey "sidebarTitle", jstr "MONITEUR SYSTEME"),
              (jkey "modelName", jstr "SALEH-7B"),
              (jkey "statusProcessing", jstr "CALCUL"),
              (jkey "statusIdle", jstr "REPOS"),
              (jkey "sessionLabel", jstr "SESSION"),
              (jkey "uptimeLabel", jstr "DISPONIBILITE"),
              (jkey "contextTitle", jstr "CONTEXTE"),
              (jkey "noSources", jstr "Aucune source"),
              (jkey "disconnect", jstr "DECONNEXION"),
              (jkey "inputPrefix", jstr "> "),
              (jkey "inputPlaceholder", jstr "Votre message")])
    ]

/-- Modelled from the spec: the English bundle, with the same key structure as
the French one (the structural-parity convention) and English values. -/
def dictEn : Json :=
  .obj
    [ (jkey "nav", .obj [(jkey "language", jstr "Language")])
    , (jkey "language",
        .obj [(jkey "switchToFr", jstr "Version francaise"),
              (jkey "switchToEn", jstr "English version")])
    , (jkey "seo",
        .obj [(jkey "siteTitle", jstr "Saleh Minawi — Portfolio"),
              (jkey "siteDescription", jstr "Bilingual portfolio"),
              (jkey "homeTitle", jstr "Home"),
              (jkey "homeDescription", jstr "Profile and projects"),
              (jkey "projectsTitle", jstr "Projects"),
              (jkey "projectsDescription", jstr "Case studies")])
    , (jkey "home",
        .obj [(jkey "role", jstr "AI Developer"),
              (jkey "goal", jstr "Build reliable AI systems"),
              (jkey "stackBackend", jstr "FastAPI"),
              (jkey "stackAi", jstr "RAG"),
              (jkey "stackInfra", jstr "Docker"),
              (jkey "stackData", jstr "PostgreSQL"),
              (jkey "chatCta", jstr "Initialize session")])
    , (jkey "projects",
        .obj [(jkey "title", jstr "Projects"),
              (jkey "intro", jstr "Detailed case studies"),
              (jkey "labels",
                .obj [(jkey "context", jstr "Context"),
                      (jkey "architecture", jstr "Architecture"),
                      (jkey "choices", jstr "Choices"),
                      (jkey "constraints", jstr "Constraints"),
                      (jkey "results", jstr "Results")])])
    , (jkey "chat",
        .obj [(jkey "boot1", jstr "Kernel initialization"),
              (jkey "boot2", jstr "Loading modules"),
              (jkey "boot3", jstr "Linking backend"),
              (jkey "boot4", jstr "Interface ready"),
              (jkey "sidebarTitle", jstr "SYSTEM MONITOR"),
              (jkey "modelName", jstr "SALEH-7B"),
              (jkey "statusProcessing", jstr "PROCESSING"),
              (jkey "statusIdle", jstr "IDLE"),
              (jkey "sessionLabel", jstr "SESSION"),
              (jkey "uptimeLabel", jstr "UPTIME"),
              (jkey "contextTitle", jstr "CONTEXT"),
              (jkey "noSources", jstr "No sources"),
              (jkey "disconnect", jstr "DISCONNECT"),
              (jkey "inputPrefix", jstr "> "),
              (jkey "inputPlaceholder", jstr "Your message")])
    ]

/-- One host dynamic import of a locale bundle: every invocation counts as
an import; the bundle is actually loaded only the first time (host cache),
and the returned module value is the same either way. -/
def hostImport (locale : Locale) (h : Host) : Json × Host :=
  match locale with
  | .fr =>
    (dictFr,
     { h with
        frImports := h.frImports + 1
        frLoads := if h.frLoads = 0 then 1 else h.frLoads })
  | .en =>
    (dictEn,
     { h with
        enImports := h.enImports + 1
        enLoads := if h.enLoads = 0 then 1 else h.enLoads })

/-- Embeds the `dictionaries` lookup table: each entry is a thunk that performs
a host dynamic import of that locale's bundle when invoked. -/
def dictionaries (locale : Locale) : Host → Json × Host :=
  match locale with
  | .fr => hostImport .fr
  | .en => hostImport .en

/-- Embeds `getDictionary(locale)`: invoke the thunk selected from the lookup
table. The loader keeps no state of its own; the host registry is the only
state threaded through. -/
def getDictionary (locale : Locale) (h : Host) : Json × Host :=
  dictionaries locale h

/-- A fresh process: no imports and no loads have happened yet. -/
def freshHost : Host := ⟨0, 0, 0, 0⟩

/-- State of the loader the spec describes: an explicit per-locale cache slot
next to the host registry. -/
structure CachedLoader where
  cacheFr : Option Json
  cacheEn : Option Json
  host : Host
deriving DecidableEq

/-- Modelled from the spec: "an explicit load-once cache keyed by locale tag,
initialized lazily, exposed only through an accessor". Reference accessor the
code-level loader is compared against: a cache hit bypasses the host import. -/
def getDictionaryCached (locale : Locale) (st : CachedLoader) : Json × CachedLoader :=
  match locale with
  | .fr =>
    match st.cacheFr with
    | some d => (d, st)
    | none =>
      let p := hostImport .fr st.host
      (p.1, ⟨some p.1, st.cacheEn, p.2⟩)
  | .en =>
    match st.cacheEn with
    | some d => (d, st)
    | none =>
      let p := hostImport .en st.host
      (p.1, ⟨st.cacheFr, some p.1, p.2⟩)

/-- A loader state with both cache slots empty. -/
def freshCachedLoader : CachedLoader := ⟨none, none, freshHost⟩

/-- The whitespace characters matched by JavaScript `\s` and trimmed by
`String.prototype.trim`. -/
def jsWhitespaceChars : List Char :=
  [' ', '\t', '\n', '\r', '\x0b', '\x0c', '\u00A0', '\u1680', '\u2000', '\u2001',
   '\u2002', '\u2003', '\u2004', '\u2005', '\u2006', '\u2007', '\u2008', '\u2009',
   '\u200A', '\u2028', '\u2029', '\u202F', '\u205F', '\u3000', '\uFEFF']

/-- Predicate form of the JavaScript whitespace set. -/
def jsWhitespace (c : Char) : Bool := jsWhitespaceChars.contains c

/-- Embeds `String.prototype.trim`: drop leading and trailing whitespace. -/
def jsTrim (s : JsStr) : JsStr :=
  ((s.dropWhile jsWhitespace).reverse.dropWhile jsWhitespace).reverse

/-- Split at every single whitespace character, keeping empty segments. -/
def splitByWs : JsStr → List JsStr
  | [] => [[]]
  | c :: rest =>
    if jsWhitespace c then [] :: splitByWs rest
    else
      match splitByWs rest with
      | [] => [[c]]
      | h :: t => (c :: h) :: t

/-- Embeds `s.split(/\s+/)` on its call site's domain: the chat panel only
applies it to trimmed non-empty strings, on which splitting at whitespace runs
coincides with discarding empty single-character-split segments. -/
def wsTokens (s : JsStr) : List JsStr :=
  (splitByWs s).filter (fun t => !t.isEmpty)

/-- The role tag of a chat message. -/
inductive Role where
  | user
  | system
  | ai
deriving DecidableEq

/-- A chat message as kept in the panel's message list. -/
structure Message where
  id : JsStr
  role : Role
  content : JsStr
  ts : JsStr
deriving DecidableEq

/-- The live-metrics record of the chat panel (the fractional memory figure is
kept in tenths of a GB so the state stays integral). -/
structure Metrics where
  latency : Nat
  tokenGen : Nat
  memoryTenthsGB : Nat
  tokensUsed : Nat
deriving DecidableEq

/-- The component state of the chat panel that `handleSend` reads or writes. -/
structure ChatState where
  messages : List Message
  input : JsStr
  isProcessing : Bool
  booted : Bool
  sessionId : JsStr
  locale : JsStr
  metrics : Metrics
deriving DecidableEq

/-- The JSON body of the network call `handleSend` issues to `/api/chat`. -/
structure ChatRequestBody where
  message : JsStr
  session_id : JsStr
  locale : JsStr
deriving DecidableEq

/-- Decimal rendering of `Date.now()` used in message ids. -/
def natDigits (n : Nat) : JsStr := (Nat.repr n).toList

/-- Embeds the synchronous part of `handleSend`, up to and including the
network call it issues: trim the input; return unchanged (and call nothing)
when the trimmed input is empty, a send is in flight, or the boot sequence has
not finished; otherwise append the user message, clear the input, raise the
processing flag, charge the token metric, and issue the fetch with the trimmed
message, session id and locale. `now` and `clock` stand for `Date.now()` and
the formatted timestamp. -/
def handleSend (st : ChatState) (now : Nat) (clock : JsStr) :
    ChatState × Option ChatRequestBody :=
  let trimmed := jsTrim st.input
  if trimmed.isEmpty || st.isProcessing || !st.booted then
    (st, none)
  else
    let userMsg : Message := ⟨"u-".toList ++ natDigits now, .user, trimmed, clock⟩
    ({ st with
        messages := st.messages ++ [userMsg]
        input := []
        isProcessing := true
        metrics :=
          { st.metrics with
              tokensUsed := st.metrics.tokensUsed + (wsTokens trimmed).length * 3 } },
     some ⟨trimmed, st.sessionId, st.locale⟩)

/-! Helper lemmas about path splitting. -/

/-- Splitting never yields the empty list of segments. -/
theorem splitSlash_ne_nil : ∀ l : JsStr, splitSlash l ≠ []
  | [] => by simp [splitSlash]
  | c :: rest => by
    by_cases hc : c = '/'
    · simp [splitSlash, hc]
    · simp only [splitSlash, if_neg hc]
      cases h : splitSlash rest with
      | nil => simp
      | cons a t => simp

/-- Splitting a slash-free block followed by a slash peels off the block as the
first segment. -/
theorem splitSlash_no_slash_append (s r : JsStr) (hs : '/' ∉ s) :
    splitSlash (s ++ '/' :: r) = s :: splitSlash r := by
  induction s with
  | nil => simp [splitSlash]
  | cons c cs ih =>
    have hc : ¬ c = '/' := fun h => hs (by simp [h])
    have hcs : '/' ∉ cs := fun h => hs (List.mem_cons_of_mem _ h)
    have ihh : splitSlash (List.append cs ('/' :: r)) = cs :: splitSlash r := ih hcs
    simp only [List.cons_append, splitSlash, if_neg hc]
    rw [ihh]

/-! Theorems settling the spec's claims. -/

/-- C1 (counterexample): `api` is not a supported locale, yet the proxy passes
`/api/health` through instead of redirecting it to `/fr/api/health`, because
API routes hit the pass-through guard before the locale check. -/
theorem proxy_api_segment_cex :
    isLocale "api".toList = false ∧
    proxy ⟨"/api/health".toList, []⟩ = ProxyResult.next ∧
    ProxyResult.next ≠ ProxyResult.redirect "/fr/api/health".toList [] := by decide

/-- C1 (amended): for every first segment `s` outside the supported-locale set,
a request for `/s/...` that does not hit the pass-through guard (framework
assets under `/_next`, API routes under `/api`, or paths with a file extension)
is redirected to the same path prefixed with the default locale `/fr`, with the
query string kept, and is never rejected. -/
theorem proxy_unknown_segment_redirects
    (s r q : JsStr)
    (hloc : isLocale s = false)
    (hne : s ≠ [])
    (hslash : '/' ∉ s)
    (h1 : jsStartsWith ('/' :: (s ++ '/' :: r)) "/_next".toList = false)
    (h2 : jsStartsWith ('/' :: (s ++ '/' :: r)) "/api".toList = false)
    (h3 : hasFileExt ('/' :: (s ++ '/' :: r)) = false) :
    proxy ⟨'/' :: (s ++ '/' :: r), q⟩ =
      ProxyResult.redirect ("/fr".toList ++ ('/' :: (s ++ '/' :: r))) q := by
  have hroot : ¬ ('/' :: (s ++ '/' :: r) = "/".toList) := by
    intro h
    have htail : s ++ '/' :: r = [] := by simpa using congrArg List.tail h
    simp at htail
  have hsplit : splitSlash ('/' :: (s ++ '/' :: r)) = [] :: (s :: splitSlash r) := by
    simp [splitSlash, splitSlash_no_slash_append s r hslash]
  have hsE : s.isEmpty = false := by
    cases s with
    | nil => exact absurd rfl hne
    | cons a t => rfl
  have h1' : jsStartsWith ('/' :: (s ++ '/' :: r)) ['/', '_', 'n', 'e', 'x', 't'] = false := h1
  have h2' : jsStartsWith ('/' :: (s ++ '/' :: r)) ['/', 'a', 'p', 'i'] = false := h2
  have hfind : splitSlash (s ++ '/' :: r) = s :: splitSlash r :=
    splitSlash_no_slash_append s r hslash
  simp [proxy, h1, h2, h1', h2', h3, hroot, hsplit, hfind, hsE, hloc,
    List.filter, List.find?]

/-- C1 (witness): the unrecognized segment `blog` is default-prefixed. -/
theorem proxy_unknown_segment_redirects_witness :
    proxy ⟨'/' :: ("blog".toList ++ '/' :: "post".toList), "q=1".toList⟩ =
      ProxyResult.redirect ("/fr".toList ++ ('/' :: ("blog".toList ++ '/' :: "post".toList)))
        "q=1".toList :=
  proxy_unknown_segment_redirects "blog".toList "post".toList "q=1".toList
    (by decide) (by decide) (by decide) (by decide) (by decide) (by decide)

/-- C2: when the forwarded GET to the backend fails with a network error, the
health route answers exactly `{status: "error", reason: "backend_unreachable"}`
with HTTP status 502. -/
theorem healthGET_network_error_envelope :
    healthGET FetchOutcome.throws =
      ⟨502, Json.obj [("status".toList, Json.str "error".toList),
                      ("reason".toList, Json.str "backend_unreachable".toList)]⟩ := rfl

/-- C3: when the forwarded POST to the backend fails with a network error, the
chat route answers exactly `{message: "Backend unreachable"}` with HTTP status
502, whatever payload the client sent. -/
theorem chatPOST_network_error_envelope (payload : Json) :
    chatPOST (some payload) (fun _ => FetchOutcome.throws) =
      ⟨502, Json.obj [("message".toList, Json.str "Backend unreachable".toList)]⟩ := rfl

/-- C4 (counterexample): `xx` is not a supported locale, and the locale layout
rejects the render with `notFound()` instead of falling back to `fr`. -/
theorem localeLayout_invalid_locale_cex :
    isLocale "xx".toList = false ∧
    localeLayout "xx".toList = RenderOutcome.notFound ∧
    RenderOutcome.notFound ≠ RenderOutcome.rendered "fr".toList := by decide

/-- C4 (amended): on an unsupported locale parameter the home and projects
pages fall back to the default locale `fr` and still render, while the locale
layout rejects the render with `notFound()`. -/
theorem renderers_invalid_locale (p : JsStr) (h : isLocale p = false) :
    homePage p = RenderOutcome.rendered "fr".toList ∧
    projectsPage p = RenderOutcome.rendered "fr".toList ∧
    localeLayout p = RenderOutcome.notFound := by
  simp [homePage, projectsPage, localeLayout, h]

/-- C4 (witness): the behavior at the unsupported locale `xx`. -/
theorem renderers_invalid_locale_witness :
    homePage "xx".toList = RenderOutcome.rendered "fr".toList ∧
    projectsPage "xx".toList = RenderOutcome.rendered "fr".toList ∧
    localeLayout "xx".toList = RenderOutcome.notFound :=
  renderers_invalid_locale "xx".toList (by decide)

/-- C5 (counterexample): starting from a fresh process, two `getDictionary`
calls for `fr` drive two host dynamic imports, whereas the explicit load-once
cache the spec describes would drive exactly one: the loader maintains no
cache of its own. -/
theorem getDictionary_no_explicit_cache_cex :
    ((getDictionary .fr (getDictionary .fr freshHost).2).2).frImports = 2 ∧
    ((getDictionaryCached .fr (getDictionaryCached .fr freshCachedLoader).2).2).host.frImports
      = 1 ∧
    (2 : Nat) ≠ 1 := by decide

/-- C5 (amended): `getDictionary` is a direct lookup of per-locale
dynamic-import thunks with no explicit cache: every call re-invokes the import
and returns that locale's bundle, and a bundle is loaded at most once only
because the host module registry caches modules. -/
theorem getDictionary_reimports_each_call (h : Host) :
    (getDictionary .fr h).1 = dictFr ∧
    (getDictionary .fr h).2.frImports = h.frImports + 1 ∧
    (getDictionary .en h).2.enImports = h.enImports + 1 ∧
    (getDictionary .fr (getDictionary .fr h).2).2.frImports = h.frImports + 2 ∧
    (getDictionary .fr (getDictionary .fr h).2).2.frLoads
      = (if h.frLoads = 0 then 1 else h.frLoads) := by
  refine ⟨rfl, rfl, rfl, rfl, ?_⟩
  by_cases hz : h.frLoads = 0 <;> simp [getDictionary, dictionaries, hostImport, hz]

/-- C6: every pair of supported locales is served translation bundles with the
identical nested key structure. -/
theorem dictionary_key_parity :
    ∀ l l' : Locale,
      keyShape (getDictionary l freshHost).1 = keyShape (getDictionary l' freshHost).1 := by
  intro l l'
  cases l <;> cases l' <;> rfl

/-- C7: the language-switcher rewrite maps `/fr/projets` with target `en` to
`/en/projets`, and `/fr` with target `en` to `/en`. -/
theorem swapLocale_switch_examples :
    swapLocale "/fr/projets".toList "en".toList = "/en/projets".toList ∧
    swapLocale "/fr".toList "en".toList = "/en".toList := by decide

/-- C8: a request for the bare root `/` is redirected to `/fr` whatever the
query string is, and the query string is kept on the redirect. -/
theorem proxy_root_redirect (q : JsStr) :
    proxy ⟨"/".toList, q⟩ = ProxyResult.redirect "/fr".toList q := rfl

/-- C9: submitting input that is empty or all whitespace leaves the chat panel
state untouched (message list, input, processing flag, metrics) and issues no
network call. -/
theorem handleSend_whitespace_noop (st : ChatState) (now : Nat) (clock : JsStr)
    (h : ∀ c ∈ st.input, jsWhitespace c = true) :
    handleSend st now clock = (st, none) := by
  have h1 : st.input.dropWhile jsWhitespace = [] := by
    exact List.dropWhile_eq_nil_iff.mpr h
  have ht : jsTrim st.input = [] := by simp [jsTrim, h1]
  simp [handleSend, ht]

/-- C9 (witness): a two-space input is a no-op send. -/
theorem handleSend_whitespace_noop_witness :
    handleSend ⟨[], "  ".toList, false, true, "abcd".toList, "fr".toList, ⟨42, 38, 42, 0⟩⟩
        1700000000000 "12:00:00".toList =
      (⟨[], "  ".toList, false, true, "abcd".toList, "fr".toList, ⟨42, 38, 42, 0⟩⟩, none) :=
  handleSend_whitespace_noop _ _ _ (by decide)

/-- C10 (counterexample): the chat route's 502 envelope is not returned only
when a step of the forward throws: a backend that itself answers status 502
with body `{message: "Backend unreachable"}` is relayed verbatim into the very
same response with no step throwing, so the stated equivalence fails. -/
theorem chatPOST_envelope_iff_cex :
    ¬ (∀ (req : Option Json) (backend : Json → FetchOutcome),
        chatPOST req backend = ⟨502, chatEnvelope⟩ ↔
          (req = none ∨ ∃ p, req = some p ∧
            (backend p = .throws ∨ ∃ st, backend p = .ok st none))) := by
  intro hall
  have h := (hall (some (Json.obj [])) (fun _ => FetchOutcome.ok 502 (some chatEnvelope))).mp rfl
  rcases h with h | ⟨p, _, h | ⟨st, h⟩⟩
  · exact Option.noConfusion h
  · exact FetchOutcome.noConfusion h
  · injection h with h1 h2
    exact Option.noConfusion h2

/-- C10 (amended): the chat route answers its fixed 502 envelope exactly when a
step of the forward throws — the incoming body fails to parse, the fetch fails,
or the backend body fails to parse — or the backend itself answers status 502
with that very envelope; in particular a malformed client request is
indistinguishable from a network failure. -/
theorem chatPOST_envelope_characterization (req : Option Json)
    (backend : Json → FetchOutcome) :
    chatPOST req backend = ⟨502, chatEnvelope⟩ ↔
      (req = none ∨ ∃ p, req = some p ∧
        (backend p = .throws ∨ (∃ st, backend p = .ok st none) ∨
          backend p = .ok 502 (some chatEnvelope))) := by
  cases req with
  | none => simp [chatPOST]
  | some p =>
    cases hb : backend p with
    | throws => simp [chatPOST, hb]
    | ok st body =>
      cases body with
      | none => simp [chatPOST, hb]
      | some d => simp [chatPOST, hb, RouteResponse.mk.injEq, FetchOutcome.ok.injEq]

end Portfolio
